import Mathlib

/-!
Verification of the declaration-conversion stage for enum and error
declarations (`uniffi_udl/src/converters/enum_.rs`).

The four `APIConverter` impls in that file are embedded as four Lean
functions.  External collaborators that are not part of the given source
(the docstring normalizer `convert_docstring`, the attribute interpreter
`EnumAttributes::try_from`, the per-member operation converter, and the
`InterfaceCollector` state) are modelled abstractly: the converters are
parameterized over them, so every theorem holds for all behaviours of the
collaborators.  Rust's `anyhow::Result` is embedded as `Except String`,
errors being their messages; `&mut InterfaceCollector` is embedded by
explicit state passing.
-/

namespace UniffiUdl

/-- Modelled from the spec: fields of a variant.  Variants produced by this
core always carry an empty field list; the field shape itself belongs to the
out-of-scope richer member converter, so only a name is kept. -/
structure FieldMetadata where
  name : String
  deriving DecidableEq

/-- Embeds `uniffi_meta::VariantMetadata` as used by this core. -/
structure VariantMetadata where
  name : String
  discr : Option Int
  fields : List FieldMetadata
  docstring : Option String
  deriving DecidableEq

/-- Embeds `uniffi_meta::EnumMetadata` (the Enumeration Record). -/
structure EnumMetadata where
  module_path : String
  name : String
  variants : List VariantMetadata
  non_exhaustive : Bool
  docstring : Option String
  deriving DecidableEq

/-- Embeds `uniffi_meta::ErrorMetadata`; only the `Enum` shape is populated
by this core. -/
inductive ErrorMetadata where
  | Enum (enum_ : EnumMetadata) (is_flat : Bool)
  deriving DecidableEq

/-- Projection of the `is_flat` flag of an Error Record. -/
def ErrorMetadata.is_flat : ErrorMetadata → Bool
  | .Enum _ f => f

/-- Projection of the embedded Enumeration Record of an Error Record. -/
def ErrorMetadata.enum_ : ErrorMetadata → EnumMetadata
  | .Enum e _ => e

/-- Embeds one entry of `weedle::EnumDefinition.values.body.list`: a literal
value node (`v.value.0`) with its optional attached doc comment
(`v.docstring`, the raw text `v.0`). -/
structure EnumValueNode where
  value : String
  docstring : Option String
  deriving DecidableEq

/-- Embeds `weedle::EnumDefinition`.  The attribute list is kept abstract
(type `α`) because its grammar lives in the external attribute interpreter. -/
structure EnumDefinition (α : Type) where
  docstring : Option String
  attributes : Option α
  identifier : String
  values : List EnumValueNode
  deriving DecidableEq

/-- Embeds `weedle::interface::InterfaceMember`: either an operation member
(payload abstract, type `β`, converted by the external per-member converter)
or any other member kind, carrying its debug rendering (what Rust's `{:?}`
splices into the error message). -/
inductive InterfaceMember (β : Type) where
  | Operation (op : β)
  | Other (dbg : String)
  deriving DecidableEq

/-- Embeds `weedle::InterfaceDefinition`.  Only the presence of the
inheritance clause matters to this core, so it is kept as an option of its
rendering. -/
structure InterfaceDefinition (α β : Type) where
  docstring : Option String
  attributes : Option α
  identifier : String
  inheritance : Option String
  members : List (InterfaceMember β)
  deriving DecidableEq

/-- Modelled from the spec: the flag set produced by the external Attribute
Interpreter (`EnumAttributes`), exposing the non-exhaustive flag. -/
structure EnumAttributes where
  non_exhaustive_attr : Bool
  deriving DecidableEq

/-- Embeds `EnumAttributes::contains_non_exhaustive_attr`. -/
def EnumAttributes.contains_non_exhaustive_attr (a : EnumAttributes) : Bool :=
  a.non_exhaustive_attr

/-- Modelled from the spec: the Conversion Context (`InterfaceCollector`).
This core only reads its current module path; all other state (item set,
type universe, ...) is opaque, of type `σ`. -/
structure InterfaceCollector (σ : Type) where
  module_path : String
  extra : σ
  deriving DecidableEq

/-- Modelled from the spec: the external collaborators the converters call.
`convert_docstring` is the Docstring Normalizer; `enumAttributesTryFrom` is
`EnumAttributes::try_from` over the raw attribute list; `operationConvert`
is the delegated per-member converter for operation members of an
enum-flavored interface (it receives the mutable collector, hence the state
in its result). -/
structure Externals (α β σ : Type) where
  convert_docstring : String → String
  enumAttributesTryFrom : Option α → Except String EnumAttributes
  operationConvert : β → InterfaceCollector σ → Except String (VariantMetadata × InterfaceCollector σ)

variable {α β σ : Type}

/-- Embeds `iter().map(f).collect::<Result<Vec<_>>>()`: builds the list of
results, short-circuiting at the first error. -/
def collectResults {ρ τ : Type} (f : ρ → Except String τ) : List ρ → Except String (List τ)
  | [] => .ok []
  | x :: xs => do
    let y ← f x
    let ys ← collectResults f xs
    pure (y :: ys)

/-- Entry point A: `APIConverter<EnumMetadata> for weedle::EnumDefinition`.
Variant docstrings pass through `convert_docstring`; the collector is only
read (for the module path), which state passing makes explicit by returning
it unchanged. -/
def EnumDefinition.convertEnumMetadata (ext : Externals α β σ) (self : EnumDefinition α)
    (ci : InterfaceCollector σ) : Except String (EnumMetadata × InterfaceCollector σ) := do
  let attributes ← ext.enumAttributesTryFrom self.attributes
  let variants ← collectResults (fun v => Except.ok
    { name := v.value
      discr := none
      fields := []
      docstring := v.docstring.map (fun d => ext.convert_docstring d) : VariantMetadata }) self.values
  pure ({ module_path := ci.module_path
          name := self.identifier
          variants := variants
          non_exhaustive := attributes.contains_non_exhaustive_attr
          docstring := self.docstring.map (fun d => ext.convert_docstring d) }, ci)

/-- Entry point B: `APIConverter<ErrorMetadata> for weedle::EnumDefinition`.
Identical to A except that the record is wrapped as `ErrorMetadata::Enum`
with `is_flat = true`, and — as in the source — each variant docstring is
the raw cloned text (`v.docstring.as_ref().map(|v| v.0.clone())`), not
passed through `convert_docstring`. -/
def EnumDefinition.convertErrorMetadata (ext : Externals α β σ) (self : EnumDefinition α)
    (ci : InterfaceCollector σ) : Except String (ErrorMetadata × InterfaceCollector σ) := do
  let attributes ← ext.enumAttributesTryFrom self.attributes
  let variants ← collectResults (fun v => Except.ok
    { name := v.value
      discr := none
      fields := []
      docstring := v.docstring.map (fun d => d) : VariantMetadata }) self.values
  pure (ErrorMetadata.Enum
    { module_path := ci.module_path
      name := self.identifier
      variants := variants
      non_exhaustive := attributes.contains_non_exhaustive_attr
      docstring := self.docstring.map (fun d => ext.convert_docstring d) }
    true, ci)

/-- The message of the structural rejection for interface inheritance. -/
def inheritanceError : String :=
  "interface inheritance is not supported for enum interfaces"

/-- The message for a non-operation member, with the member's debug
rendering spliced in for `{:?}`. -/
def memberError (dbg : String) : String :=
  "interface member type " ++ dbg ++ " not supported in enum interface"

/-- Reduction of `Except.bind` at a success value. -/
theorem okBind {ε ρ τ : Type} (a : ρ) (f : ρ → Except ε τ) :
    Except.bind (Except.ok a) f = f a := rfl

/-- Reduction of `Except.bind` at an error value. -/
theorem errorBind {ε ρ τ : Type} (msg : ε) (f : ρ → Except ε τ) :
    Except.bind (Except.error msg) f = Except.error msg := rfl

/-- Embeds the member traversal of the interface entry points:
`members.body.iter().map(...).collect::<Result<Vec<_>>>()` where operation
members are delegated to the external converter (threading the mutable
collector) and any other member aborts with `memberError`. -/
def collectMembers (ext : Externals α β σ) :
    List (InterfaceMember β) → InterfaceCollector σ →
    Except String (List VariantMetadata × InterfaceCollector σ)
  | [], ci => .ok ([], ci)
  | .Operation t :: ms, ci =>
    Except.bind (ext.operationConvert t ci) (fun q =>
      Except.bind (collectMembers ext ms q.2) (fun r => .ok (q.1 :: r.1, r.2)))
  | .Other d :: _, _ => .error (memberError d)

/-- Entry point C: `APIConverter<EnumMetadata> for weedle::InterfaceDefinition`.
Inheritance is rejected first (`bail!`), then attributes are interpreted,
then members are collected. -/
def InterfaceDefinition.convertEnumMetadata (ext : Externals α β σ)
    (self : InterfaceDefinition α β) (ci : InterfaceCollector σ) :
    Except String (EnumMetadata × InterfaceCollector σ) :=
  if self.inheritance.isSome then
    .error inheritanceError
  else do
    let attributes ← ext.enumAttributesTryFrom self.attributes
    let module_path := ci.module_path
    let (variants, ci₁) ← collectMembers ext self.members ci
    pure ({ module_path := module_path
            name := self.identifier
            variants := variants
            non_exhaustive := attributes.contains_non_exhaustive_attr
            docstring := self.docstring.map (fun d => ext.convert_docstring d) }, ci₁)

/-- Entry point D: `APIConverter<ErrorMetadata> for weedle::InterfaceDefinition`.
Same as C, wrapped as `ErrorMetadata::Enum` with `is_flat = false`. -/
def InterfaceDefinition.convertErrorMetadata (ext : Externals α β σ)
    (self : InterfaceDefinition α β) (ci : InterfaceCollector σ) :
    Except String (ErrorMetadata × InterfaceCollector σ) :=
  if self.inheritance.isSome then
    .error inheritanceError
  else do
    let attributes ← ext.enumAttributesTryFrom self.attributes
    let module_path := ci.module_path
    let (variants, ci₁) ← collectMembers ext self.members ci
    pure (ErrorMetadata.Enum
      { module_path := module_path
        name := self.identifier
        variants := variants
        non_exhaustive := attributes.contains_non_exhaustive_attr
        docstring := self.docstring.map (fun d => ext.convert_docstring d) }
      false, ci₁)

/-- The record entry point A builds when the attribute parse yields `a` and
the module path is `mp`. -/
def enumRecordA (ext : Externals α β σ) (self : EnumDefinition α) (a : EnumAttributes)
    (mp : String) : EnumMetadata :=
  { module_path := mp
    name := self.identifier
    variants := self.values.map (fun v =>
      { name := v.value
        discr := none
        fields := []
        docstring := v.docstring.map (fun d => ext.convert_docstring d) })
    non_exhaustive := a.contains_non_exhaustive_attr
    docstring := self.docstring.map (fun d => ext.convert_docstring d) }

/-- The enumeration record entry point B embeds: as `enumRecordA` but with
raw (un-normalized) variant docstrings. -/
def enumRecordB (ext : Externals α β σ) (self : EnumDefinition α) (a : EnumAttributes)
    (mp : String) : EnumMetadata :=
  { module_path := mp
    name := self.identifier
    variants := self.values.map (fun v =>
      { name := v.value
        discr := none
        fields := []
        docstring := v.docstring.map (fun d => d) })
    non_exhaustive := a.contains_non_exhaustive_attr
    docstring := self.docstring.map (fun d => ext.convert_docstring d) }

theorem collectResults_ok {ρ τ : Type} (f : ρ → τ) (l : List ρ) :
    collectResults (fun v => Except.ok (f v)) l = .ok (l.map f) := by
  induction l with
  | nil => rfl
  | cons x xs ih =>
    simp only [collectResults, ih]
    rfl

theorem convertEnumMetadataA_ok (ext : Externals α β σ) (self : EnumDefinition α)
    (ci : InterfaceCollector σ) (a : EnumAttributes)
    (ha : ext.enumAttributesTryFrom self.attributes = .ok a) :
    self.convertEnumMetadata ext ci = .ok (enumRecordA ext self a ci.module_path, ci) := by
  unfold EnumDefinition.convertEnumMetadata
  rw [ha]
  simp only [collectResults_ok]
  rfl

theorem convertEnumMetadataA_err (ext : Externals α β σ) (self : EnumDefinition α)
    (ci : InterfaceCollector σ) (msg : String)
    (ha : ext.enumAttributesTryFrom self.attributes = .error msg) :
    self.convertEnumMetadata ext ci = .error msg := by
  unfold EnumDefinition.convertEnumMetadata
  rw [ha]
  rfl

theorem convertEnumMetadataA_ok_inv (ext : Externals α β σ) (self : EnumDefinition α)
    (ci ci₁ : InterfaceCollector σ) (e : EnumMetadata)
    (h : self.convertEnumMetadata ext ci = .ok (e, ci₁)) :
    ∃ a, ext.enumAttributesTryFrom self.attributes = .ok a ∧
      e = enumRecordA ext self a ci.module_path ∧ ci₁ = ci := by
  cases ha : ext.enumAttributesTryFrom self.attributes with
  | error msg => rw [convertEnumMetadataA_err ext self ci msg ha] at h; cases h
  | ok a =>
    rw [convertEnumMetadataA_ok ext self ci a ha] at h
    refine ⟨a, rfl, ?_, ?_⟩
    · cases h; rfl
    · cases h; rfl

theorem convertErrorMetadataB_ok (ext : Externals α β σ) (self : EnumDefinition α)
    (ci : InterfaceCollector σ) (a : EnumAttributes)
    (ha : ext.enumAttributesTryFrom self.attributes = .ok a) :
    self.convertErrorMetadata ext ci =
      .ok (ErrorMetadata.Enum (enumRecordB ext self a ci.module_path) true, ci) := by
  unfold EnumDefinition.convertErrorMetadata
  rw [ha]
  simp only [collectResults_ok]
  rfl

theorem convertErrorMetadataB_err (ext : Externals α β σ) (self : EnumDefinition α)
    (ci : InterfaceCollector σ) (msg : String)
    (ha : ext.enumAttributesTryFrom self.attributes = .error msg) :
    self.convertErrorMetadata ext ci = .error msg := by
  unfold EnumDefinition.convertErrorMetadata
  rw [ha]
  rfl

theorem convertErrorMetadataB_ok_inv (ext : Externals α β σ) (self : EnumDefinition α)
    (ci ci₁ : InterfaceCollector σ) (m : ErrorMetadata)
    (h : self.convertErrorMetadata ext ci = .ok (m, ci₁)) :
    ∃ a, ext.enumAttributesTryFrom self.attributes = .ok a ∧
      m = ErrorMetadata.Enum (enumRecordB ext self a ci.module_path) true ∧ ci₁ = ci := by
  cases ha : ext.enumAttributesTryFrom self.attributes with
  | error msg => rw [convertErrorMetadataB_err ext self ci msg ha] at h; cases h
  | ok a =>
    rw [convertErrorMetadataB_ok ext self ci a ha] at h
    refine ⟨a, rfl, ?_, ?_⟩
    · cases h; rfl
    · cases h; rfl

/-- The enumeration record the interface entry points build around a
collected variant list `vs`. -/
def ifaceRecord (ext : Externals α β σ) (self : InterfaceDefinition α β) (a : EnumAttributes)
    (mp : String) (vs : List VariantMetadata) : EnumMetadata :=
  { module_path := mp
    name := self.identifier
    variants := vs
    non_exhaustive := a.contains_non_exhaustive_attr
    docstring := self.docstring.map (fun d => ext.convert_docstring d) }

theorem convertIfaceEnum_inheritance (ext : Externals α β σ) (self : InterfaceDefinition α β)
    (ci : InterfaceCollector σ) (h : self.inheritance.isSome = true) :
    self.convertEnumMetadata ext ci = .error inheritanceError := by
  unfold InterfaceDefinition.convertEnumMetadata
  rw [h]
  rfl

theorem convertIfaceError_inheritance (ext : Externals α β σ) (self : InterfaceDefinition α β)
    (ci : InterfaceCollector σ) (h : self.inheritance.isSome = true) :
    self.convertErrorMetadata ext ci = .error inheritanceError := by
  unfold InterfaceDefinition.convertErrorMetadata
  rw [h]
  rfl

theorem convertIfaceEnum_attr_err (ext : Externals α β σ) (self : InterfaceDefinition α β)
    (ci : InterfaceCollector σ) (msg : String) (hinh : self.inheritance.isSome = false)
    (ha : ext.enumAttributesTryFrom self.attributes = .error msg) :
    self.convertEnumMetadata ext ci = .error msg := by
  unfold InterfaceDefinition.convertEnumMetadata
  rw [hinh, ha]
  rfl

theorem convertIfaceError_attr_err (ext : Externals α β σ) (self : InterfaceDefinition α β)
    (ci : InterfaceCollector σ) (msg : String) (hinh : self.inheritance.isSome = false)
    (ha : ext.enumAttributesTryFrom self.attributes = .error msg) :
    self.convertErrorMetadata ext ci = .error msg := by
  unfold InterfaceDefinition.convertErrorMetadata
  rw [hinh, ha]
  rfl

theorem convertIfaceEnum_char (ext : Externals α β σ) (self : InterfaceDefinition α β)
    (ci : InterfaceCollector σ) (a : EnumAttributes)
    (hinh : self.inheritance.isSome = false)
    (ha : ext.enumAttributesTryFrom self.attributes = .ok a) :
    self.convertEnumMetadata ext ci =
      (collectMembers ext self.members ci).map
        (fun p => (ifaceRecord ext self a ci.module_path p.1, p.2)) := by
  unfold InterfaceDefinition.convertEnumMetadata
  rw [if_neg (by rw [hinh]; exact Bool.false_ne_true)]
  rw [ha]
  cases hc : collectMembers ext self.members ci with
  | error e => rfl
  | ok p => obtain ⟨vs, ci₁⟩ := p; rfl

theorem convertIfaceError_char (ext : Externals α β σ) (self : InterfaceDefinition α β)
    (ci : InterfaceCollector σ) (a : EnumAttributes)
    (hinh : self.inheritance.isSome = false)
    (ha : ext.enumAttributesTryFrom self.attributes = .ok a) :
    self.convertErrorMetadata ext ci =
      (collectMembers ext self.members ci).map
        (fun p => (ErrorMetadata.Enum (ifaceRecord ext self a ci.module_path p.1) false, p.2)) := by
  unfold InterfaceDefinition.convertErrorMetadata
  rw [if_neg (by rw [hinh]; exact Bool.false_ne_true)]
  rw [ha]
  cases hc : collectMembers ext self.members ci with
  | error e => rfl
  | ok p => obtain ⟨vs, ci₁⟩ := p; rfl

theorem collectMembers_nil (ext : Externals α β σ) (ci : InterfaceCollector σ) :
    collectMembers ext [] ci = .ok ([], ci) := rfl

theorem collectMembers_cons_op (ext : Externals α β σ) (t : β) (ms : List (InterfaceMember β))
    (ci : InterfaceCollector σ) :
    collectMembers ext (InterfaceMember.Operation t :: ms) ci =
      Except.bind (ext.operationConvert t ci) (fun q =>
        Except.bind (collectMembers ext ms q.2) (fun r => .ok (q.1 :: r.1, r.2))) := rfl

theorem collectMembers_cons_other (ext : Externals α β σ) (d : String)
    (ms : List (InterfaceMember β)) (ci : InterfaceCollector σ) :
    collectMembers ext (InterfaceMember.Other d :: ms) ci = .error (memberError d) := rfl

theorem collectMembers_ok_all_ops (ext : Externals α β σ) (ms : List (InterfaceMember β))
    (ci : InterfaceCollector σ) (p : List VariantMetadata × InterfaceCollector σ)
    (h : collectMembers ext ms ci = .ok p) :
    ∀ m ∈ ms, ∃ t, m = InterfaceMember.Operation t := by
  induction ms generalizing ci p with
  | nil => intro m hm; cases hm
  | cons m ms ih =>
    intro m' hm'
    cases m with
    | Operation t =>
      rcases List.mem_cons.mp hm' with rfl | hmem
      · exact ⟨t, rfl⟩
      · rw [collectMembers_cons_op] at h
        cases ho : ext.operationConvert t ci with
        | error e => rw [ho, errorBind] at h; cases h
        | ok q =>
          rw [ho, okBind] at h
          cases hms : collectMembers ext ms q.2 with
          | error e => rw [hms, errorBind] at h; cases h
          | ok r => exact ih q.2 r hms m' hmem
    | Other d => rw [collectMembers_cons_other] at h; cases h

theorem collectMembers_append (ext : Externals α β σ) (pre rest : List (InterfaceMember β))
    (ci ci₁ : InterfaceCollector σ) (vs : List VariantMetadata)
    (h : collectMembers ext pre ci = .ok (vs, ci₁)) :
    collectMembers ext (pre ++ rest) ci =
      (collectMembers ext rest ci₁).map (fun p => (vs ++ p.1, p.2)) := by
  induction pre generalizing ci vs with
  | nil =>
    rw [collectMembers_nil] at h
    injection h with h'
    injection h' with h1 h2
    subst h1
    subst h2
    rw [List.nil_append]
    cases hc : collectMembers ext rest ci with
    | error e => rfl
    | ok p => obtain ⟨ws, ci₂⟩ := p; rfl
  | cons m ms ih =>
    cases m with
    | Operation t =>
      rw [collectMembers_cons_op] at h
      cases ho : ext.operationConvert t ci with
      | error e => rw [ho, errorBind] at h; cases h
      | ok q =>
        obtain ⟨v, ci'⟩ := q
        rw [ho, okBind] at h
        cases hms : collectMembers ext ms ci' with
        | error e => rw [hms, errorBind] at h; cases h
        | ok r =>
          obtain ⟨vs', ci₁x⟩ := r
          rw [hms, okBind] at h
          injection h with h'
          injection h' with h1 h2
          dsimp only at h1 h2
          subst h1
          rw [h2] at hms
          rw [List.cons_append, collectMembers_cons_op, ho, okBind, ih ci' vs' hms]
          cases hr : collectMembers ext rest ci₁ with
          | error e => rfl
          | ok p => obtain ⟨ws, ci₂⟩ := p; rfl
    | Other d => rw [collectMembers_cons_other] at h; cases h

theorem collectMembers_first_other (ext : Externals α β σ) (pre rest : List (InterfaceMember β))
    (ci ci₁ : InterfaceCollector σ) (vs : List VariantMetadata) (d : String)
    (h : collectMembers ext pre ci = .ok (vs, ci₁)) :
    collectMembers ext (pre ++ InterfaceMember.Other d :: rest) ci = .error (memberError d) := by
  rw [collectMembers_append ext pre (InterfaceMember.Other d :: rest) ci ci₁ vs h,
    collectMembers_cons_other]
  rfl

theorem collectMembers_first_op_fail (ext : Externals α β σ) (pre rest : List (InterfaceMember β))
    (ci ci₁ : InterfaceCollector σ) (vs : List VariantMetadata) (t : β) (e : String)
    (h : collectMembers ext pre ci = .ok (vs, ci₁))
    (hf : ext.operationConvert t ci₁ = .error e) :
    collectMembers ext (pre ++ InterfaceMember.Operation t :: rest) ci = .error e := by
  rw [collectMembers_append ext pre (InterfaceMember.Operation t :: rest) ci ci₁ vs h,
    collectMembers_cons_op, hf, errorBind]
  rfl

theorem okMap {ε ρ τ : Type} (f : ρ → τ) (a : ρ) :
    Except.map f (Except.ok a : Except ε ρ) = .ok (f a) := rfl

theorem errorMap {ε ρ τ : Type} (f : ρ → τ) (msg : ε) :
    Except.map f (Except.error msg : Except ε ρ) = .error msg := rfl

theorem isSome_eq_false_of_ne_true {o : Option String} (h : ¬ o.isSome = true) :
    o.isSome = false := by
  revert h
  cases o.isSome <;> simp

theorem convertIfaceEnum_ok_inv (ext : Externals α β σ) (self : InterfaceDefinition α β)
    (ci ci₁ : InterfaceCollector σ) (e : EnumMetadata)
    (h : self.convertEnumMetadata ext ci = .ok (e, ci₁)) :
    ∃ a vs, self.inheritance.isSome = false ∧
      ext.enumAttributesTryFrom self.attributes = .ok a ∧
      collectMembers ext self.members ci = .ok (vs, ci₁) ∧
      e = ifaceRecord ext self a ci.module_path vs := by
  by_cases hinh : self.inheritance.isSome = true
  · rw [convertIfaceEnum_inheritance ext self ci hinh] at h; cases h
  · have hinh₀ : self.inheritance.isSome = false := isSome_eq_false_of_ne_true hinh
    cases ha : ext.enumAttributesTryFrom self.attributes with
    | error msg => rw [convertIfaceEnum_attr_err ext self ci msg hinh₀ ha] at h; cases h
    | ok a =>
      rw [convertIfaceEnum_char ext self ci a hinh₀ ha] at h
      cases hc : collectMembers ext self.members ci with
      | error msg => rw [hc, errorMap] at h; cases h
      | ok p =>
        obtain ⟨vs, ci₂⟩ := p
        rw [hc, okMap] at h
        injection h with h'
        injection h' with h1 h2
        dsimp only at h1 h2
        subst h2
        exact ⟨a, vs, hinh₀, rfl, rfl, h1.symm⟩

theorem convertIfaceError_ok_inv (ext : Externals α β σ) (self : InterfaceDefinition α β)
    (ci ci₁ : InterfaceCollector σ) (m : ErrorMetadata)
    (h : self.convertErrorMetadata ext ci = .ok (m, ci₁)) :
    ∃ a vs, self.inheritance.isSome = false ∧
      ext.enumAttributesTryFrom self.attributes = .ok a ∧
      collectMembers ext self.members ci = .ok (vs, ci₁) ∧
      m = ErrorMetadata.Enum (ifaceRecord ext self a ci.module_path vs) false := by
  by_cases hinh : self.inheritance.isSome = true
  · rw [convertIfaceError_inheritance ext self ci hinh] at h; cases h
  · have hinh₀ : self.inheritance.isSome = false := isSome_eq_false_of_ne_true hinh
    cases ha : ext.enumAttributesTryFrom self.attributes with
    | error msg => rw [convertIfaceError_attr_err ext self ci msg hinh₀ ha] at h; cases h
    | ok a =>
      rw [convertIfaceError_char ext self ci a hinh₀ ha] at h
      cases hc : collectMembers ext self.members ci with
      | error msg => rw [hc, errorMap] at h; cases h
      | ok p =>
        obtain ⟨vs, ci₂⟩ := p
        rw [hc, okMap] at h
        injection h with h'
        injection h' with h1 h2
        dsimp only at h1 h2
        subst h2
        exact ⟨a, vs, hinh₀, rfl, rfl, h1.symm⟩

/-! Concrete fixtures used by the closed witnesses and counterexamples. -/

/-- The variant the concrete operation converter below produces. -/
def vOp : VariantMetadata :=
  { name := "op", discr := none, fields := [], docstring := none }

/-- A concrete collaborator instantiation: the normalizer prefixes the raw
text, attribute interpretation succeeds with the flag clear, and operation
members convert to `vOp` without touching the collector. -/
def extTest : Externals Unit Unit Unit :=
  { convert_docstring := fun s => "N:" ++ s
    enumAttributesTryFrom := fun _ => .ok { non_exhaustive_attr := false }
    operationConvert := fun _ ci => .ok (vOp, ci) }

/-- A collaborator instantiation whose attribute interpreter always fails. -/
def extBadAttr : Externals Unit Unit Unit :=
  { convert_docstring := fun s => s
    enumAttributesTryFrom := fun _ => .error "invalid enum attribute"
    operationConvert := fun _ ci => .ok (vOp, ci) }

/-- A collaborator instantiation whose operation converter always fails. -/
def extOpFail : Externals Unit Unit Unit :=
  { convert_docstring := fun s => s
    enumAttributesTryFrom := fun _ => .ok { non_exhaustive_attr := false }
    operationConvert := fun _ _ => .error "operation conversion failed" }

/-- A concrete collector, mirroring the module path of the source's test. -/
def ciTest : InterfaceCollector Unit :=
  { module_path := "crate_name", extra := () }

/-- An enum block whose single literal carries a doc comment. -/
def enumDoc : EnumDefinition Unit :=
  { docstring := none
    attributes := none
    identifier := "Testing"
    values := [{ value := "one", docstring := some "doc" }] }

/-- The duplicate-literals enum block of the source's test. -/
def enumDup : EnumDefinition Unit :=
  { docstring := none
    attributes := none
    identifier := "Testing"
    values := [{ value := "one", docstring := none },
               { value := "two", docstring := none },
               { value := "one", docstring := none }] }

/-- An enum-flavored interface block with one operation member. -/
def ifaceOp : InterfaceDefinition Unit Unit :=
  { docstring := none
    attributes := none
    identifier := "People"
    inheritance := none
    members := [InterfaceMember.Operation ()] }

/-- An enum-flavored interface block that declares a parent interface. -/
def ifaceInh : InterfaceDefinition Unit Unit :=
  { docstring := none
    attributes := none
    identifier := "People"
    inheritance := some "Person"
    members := [] }

/-- An enum-flavored interface block with a non-operation member. -/
def ifaceOther : InterfaceDefinition Unit Unit :=
  { docstring := none
    attributes := none
    identifier := "People"
    inheritance := none
    members := [InterfaceMember.Other "Attribute"] }

/-- An interface block with an operation member followed by another member,
used to exhibit first-error-wins. -/
def ifaceOpThenOther : InterfaceDefinition Unit Unit :=
  { docstring := none
    attributes := none
    identifier := "People"
    inheritance := none
    members := [InterfaceMember.Operation (), InterfaceMember.Other "Attribute"] }

/-- The record entry point A produces on `enumDup`. -/
def eDup : EnumMetadata :=
  enumRecordA extTest enumDup { non_exhaustive_attr := false } "crate_name"

/-- The record entry point B produces on `enumDup`. -/
def mBdup : ErrorMetadata :=
  ErrorMetadata.Enum (enumRecordB extTest enumDup { non_exhaustive_attr := false } "crate_name") true

/-- The record entry point C produces on `ifaceOp`. -/
def eIfaceOp : EnumMetadata :=
  ifaceRecord extTest ifaceOp { non_exhaustive_attr := false } "crate_name" [vOp]

/-- The record entry point D produces on `ifaceOp`. -/
def mIfaceOp : ErrorMetadata :=
  ErrorMetadata.Enum eIfaceOp false

/-- C1: every Error Record produced by the error-flagged enum entry point (B)
has `is_flat = true`, and every Error Record produced (successfully) by the
error-flagged interface entry point (D) has `is_flat = false`, for all
inputs and all collaborator behaviours. -/
theorem error_record_flatness (ext : Externals α β σ)
    (eSelf : EnumDefinition α) (iSelf : InterfaceDefinition α β)
    (ci di ci₁ di₁ : InterfaceCollector σ) (mB mD : ErrorMetadata)
    (hB : eSelf.convertErrorMetadata ext ci = .ok (mB, ci₁))
    (hD : iSelf.convertErrorMetadata ext di = .ok (mD, di₁)) :
    mB.is_flat = true ∧ mD.is_flat = false := by
  constructor
  · obtain ⟨a, -, hm, -⟩ := convertErrorMetadataB_ok_inv ext eSelf ci ci₁ mB hB
    rw [hm]; rfl
  · obtain ⟨a, vs, -, -, -, hm⟩ := convertIfaceError_ok_inv ext iSelf di di₁ mD hD
    rw [hm]; rfl

/-- Witness for C1: both error-flagged entry points evaluated at concrete
inputs, the enum form yielding a flat record and the interface form a
non-flat one. -/
theorem error_record_flatness_witness :
    mBdup.is_flat = true ∧ mIfaceOp.is_flat = false :=
  error_record_flatness extTest enumDup ifaceOp ciTest ciTest ciTest ciTest
    mBdup mIfaceOp (by rfl) (by rfl)

/-- C4: entry point A emits exactly one variant per literal value node, in
declaration order, named by the literal's text, with no discriminant and no
fields; duplicates are preserved (the map keeps length and order). -/
theorem enum_block_variants (ext : Externals α β σ) (self : EnumDefinition α)
    (ci ci₁ : InterfaceCollector σ) (e : EnumMetadata)
    (h : self.convertEnumMetadata ext ci = .ok (e, ci₁)) :
    e.variants = self.values.map (fun v =>
      { name := v.value
        discr := none
        fields := []
        docstring := v.docstring.map (fun d => ext.convert_docstring d) }) := by
  obtain ⟨a, -, he, -⟩ := convertEnumMetadataA_ok_inv ext self ci ci₁ e h
  rw [he]; rfl

/-- Witness for C4 on the duplicate-literal example: the enum block with
literals one, two, one yields exactly the three variants in that order. -/
theorem enum_block_variants_witness :
    eDup.variants = enumDup.values.map (fun v =>
      { name := v.value
        discr := none
        fields := []
        docstring := v.docstring.map (fun d => extTest.convert_docstring d) }) :=
  enum_block_variants extTest enumDup ciTest ciTest eDup (by rfl)

/-- C5: an interface declaration with an inheritance clause is rejected by
both interface entry points with the structural-rejection message, no record
being produced. -/
theorem inheritance_rejected (ext : Externals α β σ) (self : InterfaceDefinition α β)
    (ci : InterfaceCollector σ) (h : self.inheritance.isSome = true) :
    self.convertEnumMetadata ext ci =
      .error "interface inheritance is not supported for enum interfaces" ∧
    self.convertErrorMetadata ext ci =
      .error "interface inheritance is not supported for enum interfaces" :=
  ⟨convertIfaceEnum_inheritance ext self ci h,
   convertIfaceError_inheritance ext self ci h⟩

/-- Witness for C5 at a concrete interface with a parent. -/
theorem inheritance_rejected_witness :
    ifaceInh.convertEnumMetadata extTest ciTest =
      .error "interface inheritance is not supported for enum interfaces" ∧
    ifaceInh.convertErrorMetadata extTest ciTest =
      .error "interface inheritance is not supported for enum interfaces" :=
  inheritance_rejected extTest ifaceInh ciTest (by rfl)

/-- C9: the inheritance check precedes attribute interpretation: when a node
both declares inheritance and has a malformed attribute list, both interface
entry points fail with the structural-rejection message, not the attribute
error. -/
theorem inheritance_precedes_attributes (ext : Externals α β σ)
    (self : InterfaceDefinition α β) (ci : InterfaceCollector σ) (msg : String)
    (hinh : self.inheritance.isSome = true)
    (hattr : ext.enumAttributesTryFrom self.attributes = .error msg) :
    self.convertEnumMetadata ext ci =
      .error "interface inheritance is not supported for enum interfaces" ∧
    self.convertErrorMetadata ext ci =
      .error "interface inheritance is not supported for enum interfaces" :=
  ⟨convertIfaceEnum_inheritance ext self ci hinh,
   convertIfaceError_inheritance ext self ci hinh⟩

/-- Witness for C9: a concrete node with a parent interface and an attribute
interpreter that rejects its attribute list still gets the inheritance
error. -/
theorem inheritance_precedes_attributes_witness :
    ifaceInh.convertEnumMetadata extBadAttr ciTest =
      .error "interface inheritance is not supported for enum interfaces" ∧
    ifaceInh.convertErrorMetadata extBadAttr ciTest =
      .error "interface inheritance is not supported for enum interfaces" :=
  inheritance_precedes_attributes extBadAttr ifaceInh ciTest "invalid enum attribute"
    (by rfl) (by rfl)

/-- C10: the enum-block entry points A and B never mutate the Conversion
Context: whatever the collaborators do, a successful conversion returns the
collector exactly as it was received (they only read the module path). -/
theorem enum_entry_points_preserve_context (ext : Externals α β σ)
    (self : EnumDefinition α) (ci : InterfaceCollector σ) :
    (∀ e ci₁, self.convertEnumMetadata ext ci = .ok (e, ci₁) → ci₁ = ci) ∧
    (∀ m ci₁, self.convertErrorMetadata ext ci = .ok (m, ci₁) → ci₁ = ci) := by
  constructor
  · intro e ci₁ h
    obtain ⟨a, -, -, hci⟩ := convertEnumMetadataA_ok_inv ext self ci ci₁ e h
    exact hci
  · intro m ci₁ h
    obtain ⟨a, -, -, hci⟩ := convertErrorMetadataB_ok_inv ext self ci ci₁ m h
    exact hci

/-- Witness for C10 at concrete inputs. -/
theorem enum_entry_points_preserve_context_witness :
    ciTest = ciTest ∧ ciTest = ciTest :=
  ⟨(enum_entry_points_preserve_context extTest enumDup ciTest).1 eDup ciTest (by rfl),
   (enum_entry_points_preserve_context extTest enumDup ciTest).2 mBdup ciTest (by rfl)⟩

/-- Every pair of a list zipped with its own image under `g` relates by
`g`. -/
theorem mem_zip_map {ρ τ : Type} (g : ρ → τ) (l : List ρ) :
    ∀ p ∈ l.zip (l.map g), p.2 = g p.1 := by
  induction l with
  | nil => intro p hp; cases hp
  | cons x xs ih =>
    intro p hp
    rw [List.map_cons, List.zip_cons_cons] at hp
    rcases List.mem_cons.mp hp with rfl | hp'
    · rfl
    · exact ih p hp'

/-- C2 counterexample: in the error-flagged enum entry point (B) a variant's
doc comment is stored raw, not passed through the Docstring Normalizer: with
a normalizer that prefixes the text, the produced variant docstring is the
raw text, which differs from its normalized form.  (Entry point A normalizes
the same doc comment.) -/
theorem variant_docstring_counterexample :
    enumDoc.convertErrorMetadata extTest ciTest =
      .ok (ErrorMetadata.Enum
        { module_path := "crate_name"
          name := "Testing"
          variants := [{ name := "one", discr := none, fields := [], docstring := some "doc" }]
          non_exhaustive := false
          docstring := none } true, ciTest) ∧
    extTest.convert_docstring "doc" = "N:doc" ∧
    (some "doc" : Option String) ≠ some (extTest.convert_docstring "doc") := by
  refine ⟨by rfl, by rfl, by decide⟩

/-- C2 amended: in the plain enum entry point (A) each variant docstring is
the doc comment passed through `convert_docstring`; in the error-flagged
enum entry point (B) each variant docstring is the raw doc-comment text, not
normalized.  (The interface entry points delegate variant construction to
the external per-member converter.) -/
theorem variant_docstring_normalization (ext : Externals α β σ) (self : EnumDefinition α)
    (ci ci₁ ci₂ : InterfaceCollector σ) (e : EnumMetadata) (m : ErrorMetadata)
    (hA : self.convertEnumMetadata ext ci = .ok (e, ci₁))
    (hB : self.convertErrorMetadata ext ci = .ok (m, ci₂)) :
    e.variants.map (fun v => v.docstring)
      = self.values.map (fun v => v.docstring.map (fun d => ext.convert_docstring d)) ∧
    m.enum_.variants.map (fun v => v.docstring)
      = self.values.map (fun v => v.docstring) := by
  obtain ⟨a, -, he, -⟩ := convertEnumMetadataA_ok_inv ext self ci ci₁ e hA
  obtain ⟨b, -, hm, -⟩ := convertErrorMetadataB_ok_inv ext self ci ci₂ m hB
  subst he
  subst hm
  constructor
  · rw [enumRecordA]
    rw [List.map_map]
    rfl
  · rw [ErrorMetadata.enum_, enumRecordB]
    rw [List.map_map]
    apply List.map_congr_left
    intro v _
    show v.docstring.map (fun d => d) = v.docstring
    cases v.docstring <;> rfl

/-- Witness for the amended C2 at a concrete enum with a documented
variant. -/
theorem variant_docstring_normalization_witness :
    (enumRecordA extTest enumDoc { non_exhaustive_attr := false } "crate_name").variants.map
        (fun v => v.docstring)
      = enumDoc.values.map (fun v => v.docstring.map (fun d => extTest.convert_docstring d)) ∧
    (ErrorMetadata.Enum (enumRecordB extTest enumDoc { non_exhaustive_attr := false } "crate_name")
        true).enum_.variants.map (fun v => v.docstring)
      = enumDoc.values.map (fun v => v.docstring) :=
  variant_docstring_normalization extTest enumDoc ciTest ciTest ciTest
    (enumRecordA extTest enumDoc { non_exhaustive_attr := false } "crate_name")
    (ErrorMetadata.Enum (enumRecordB extTest enumDoc { non_exhaustive_attr := false } "crate_name")
      true) (by rfl) (by rfl)

/-- C3 counterexample: on the same node and context, the Enumeration Record
embedded in entry point B's Error Record is not structurally equal to entry
point A's record: a documented variant keeps the raw text in B but the
normalized text in A. -/
theorem embedded_enum_counterexample :
    (enumDoc.convertEnumMetadata extTest ciTest).map (fun p => p.1) =
      .ok { module_path := "crate_name"
            name := "Testing"
            variants := [{ name := "one", discr := none, fields := [], docstring := some "N:doc" }]
            non_exhaustive := false
            docstring := none } ∧
    (enumDoc.convertErrorMetadata extTest ciTest).map (fun p => p.1.enum_) =
      .ok { module_path := "crate_name"
            name := "Testing"
            variants := [{ name := "one", discr := none, fields := [], docstring := some "doc" }]
            non_exhaustive := false
            docstring := none } ∧
    ({ module_path := "crate_name"
       name := "Testing"
       variants := [{ name := "one", discr := none, fields := [], docstring := some "N:doc" }]
       non_exhaustive := false
       docstring := none } : EnumMetadata) ≠
      { module_path := "crate_name"
        name := "Testing"
        variants := [{ name := "one", discr := none, fields := [], docstring := some "doc" }]
        non_exhaustive := false
        docstring := none } := by
  refine ⟨by rfl, by rfl, by decide⟩

/-- C3 amended: the Enumeration Record embedded in entry point B's Error
Record agrees with entry point A's record on the module path, name,
non-exhaustive flag, declaration docstring, and on every variant's name,
discriminant and fields; the records coincide entirely whenever no variant
carries a doc comment (variant docstrings are the only possible
difference: raw in B versus normalized in A). -/
theorem embedded_enum_agreement (ext : Externals α β σ) (self : EnumDefinition α)
    (ci ci₁ ci₂ : InterfaceCollector σ) (e : EnumMetadata) (m : ErrorMetadata)
    (hA : self.convertEnumMetadata ext ci = .ok (e, ci₁))
    (hB : self.convertErrorMetadata ext ci = .ok (m, ci₂)) :
    m.enum_.module_path = e.module_path ∧
    m.enum_.name = e.name ∧
    m.enum_.non_exhaustive = e.non_exhaustive ∧
    m.enum_.docstring = e.docstring ∧
    m.enum_.variants.map (fun v => v.name) = e.variants.map (fun v => v.name) ∧
    m.enum_.variants.map (fun v => v.discr) = e.variants.map (fun v => v.discr) ∧
    m.enum_.variants.map (fun v => v.fields) = e.variants.map (fun v => v.fields) ∧
    ((∀ v ∈ self.values, v.docstring = none) → m.enum_ = e) := by
  obtain ⟨a, ha, he, -⟩ := convertEnumMetadataA_ok_inv ext self ci ci₁ e hA
  obtain ⟨b, hb, hm, -⟩ := convertErrorMetadataB_ok_inv ext self ci ci₂ m hB
  have hab : a = b := by
    rw [ha] at hb
    injection hb
  subst hab
  subst he
  subst hm
  refine ⟨rfl, rfl, rfl, rfl, ?_, ?_, ?_, ?_⟩
  · rw [ErrorMetadata.enum_, enumRecordA, enumRecordB, List.map_map, List.map_map]; rfl
  · rw [ErrorMetadata.enum_, enumRecordA, enumRecordB, List.map_map, List.map_map]; rfl
  · rw [ErrorMetadata.enum_, enumRecordA, enumRecordB, List.map_map, List.map_map]; rfl
  · intro hnone
    rw [ErrorMetadata.enum_, enumRecordA, enumRecordB]
    show EnumMetadata.mk _ _ _ _ _ = EnumMetadata.mk _ _ _ _ _
    congr 1
    apply List.map_congr_left
    intro v hv
    rw [hnone v hv]
    rfl

/-- Witness for the amended C3 on the undocumented duplicate-literal enum:
the embedded record equals entry point A's record outright. -/
theorem embedded_enum_agreement_witness :
    mBdup.enum_.module_path = eDup.module_path ∧
    mBdup.enum_.name = eDup.name ∧
    mBdup.enum_.non_exhaustive = eDup.non_exhaustive ∧
    mBdup.enum_.docstring = eDup.docstring ∧
    mBdup.enum_.variants.map (fun v => v.name) = eDup.variants.map (fun v => v.name) ∧
    mBdup.enum_.variants.map (fun v => v.discr) = eDup.variants.map (fun v => v.discr) ∧
    mBdup.enum_.variants.map (fun v => v.fields) = eDup.variants.map (fun v => v.fields) ∧
    ((∀ v ∈ enumDup.values, v.docstring = none) → mBdup.enum_ = eDup) :=
  embedded_enum_agreement extTest enumDup ciTest ciTest ciTest eDup mBdup
    (by rfl) (by rfl)

/-- C6 counterexample: an interface node without inheritance that contains a
non-operation member can still fail with a message that does not mention the
member's kind, namely when attribute interpretation fails first: with an
attribute interpreter rejecting the list, both entry points report the
attribute error, whose text does not contain the member's kind. -/
theorem member_kind_message_counterexample :
    ifaceOther.inheritance = none ∧
    InterfaceMember.Other "Attribute" ∈ ifaceOther.members ∧
    ifaceOther.convertEnumMetadata extBadAttr ciTest = .error "invalid enum attribute" ∧
    ifaceOther.convertErrorMetadata extBadAttr ciTest = .error "invalid enum attribute" ∧
    ¬ List.IsInfix "Attribute".data "invalid enum attribute".data := by
  refine ⟨rfl, by decide, by rfl, by rfl, by decide⟩

/-- C6 amended: an interface node without inheritance containing a
non-operation member always fails conversion in both interface entry points
(no record is produced); moreover, whenever attribute interpretation
succeeds and every member before the first non-operation member converts
successfully, the error is exactly the member-kind message naming that
member. -/
theorem member_kind_rejection (ext : Externals α β σ) (self : InterfaceDefinition α β)
    (ci : InterfaceCollector σ) (d : String)
    (hinh : self.inheritance.isSome = false)
    (hmem : InterfaceMember.Other d ∈ self.members) :
    ((∃ msg₁, self.convertEnumMetadata ext ci = .error msg₁) ∧
     (∃ msg₂, self.convertErrorMetadata ext ci = .error msg₂)) ∧
    (∀ a pre rest vs ci₁,
      ext.enumAttributesTryFrom self.attributes = .ok a →
      self.members = pre ++ InterfaceMember.Other d :: rest →
      collectMembers ext pre ci = .ok (vs, ci₁) →
      self.convertEnumMetadata ext ci = .error (memberError d) ∧
      self.convertErrorMetadata ext ci = .error (memberError d)) := by
  constructor
  · cases ha : ext.enumAttributesTryFrom self.attributes with
    | error msg =>
      exact ⟨⟨msg, convertIfaceEnum_attr_err ext self ci msg hinh ha⟩,
             ⟨msg, convertIfaceError_attr_err ext self ci msg hinh ha⟩⟩
    | ok a =>
      cases hc : collectMembers ext self.members ci with
      | error msg =>
        refine ⟨⟨msg, ?_⟩, ⟨msg, ?_⟩⟩
        · rw [convertIfaceEnum_char ext self ci a hinh ha, hc, errorMap]
        · rw [convertIfaceError_char ext self ci a hinh ha, hc, errorMap]
      | ok p =>
        obtain ⟨t, ht⟩ := collectMembers_ok_all_ops ext self.members ci p hc
          (InterfaceMember.Other d) hmem
        cases ht
  · intro a pre rest vs ci₁ ha hsplit hpre
    have hc : collectMembers ext self.members ci = .error (memberError d) := by
      rw [hsplit]
      exact collectMembers_first_other ext pre rest ci ci₁ vs d hpre
    constructor
    · rw [convertIfaceEnum_char ext self ci a hinh ha, hc, errorMap]
    · rw [convertIfaceError_char ext self ci a hinh ha, hc, errorMap]

/-- Witness for the amended C6: the interface with a single non-operation
member is rejected by both entry points with the member-kind message. -/
theorem member_kind_rejection_witness :
    ifaceOther.convertEnumMetadata extTest ciTest =
      .error (memberError "Attribute") ∧
    ifaceOther.convertErrorMetadata extTest ciTest =
      .error (memberError "Attribute") :=
  (member_kind_rejection extTest ifaceOther ciTest "Attribute" (by rfl) (by decide)).2
    { non_exhaustive_attr := false } [] [] [] ciTest (by rfl) rfl (by rfl)

/-- C7: conversion is all-or-nothing with first-error-wins in the interface
entry points: if every member before some operation member converts and that
member's delegated conversion fails with error `e`, then — whatever members
follow it — the whole conversion of both entry points returns exactly
`.error e` (no record, and members after the failure are never reached,
since the conclusion holds uniformly in `rest`). -/
theorem first_member_error_wins (ext : Externals α β σ) (self : InterfaceDefinition α β)
    (ci ci₁ : InterfaceCollector σ) (pre rest : List (InterfaceMember β)) (t : β)
    (vs : List VariantMetadata) (a : EnumAttributes) (e : String)
    (hinh : self.inheritance.isSome = false)
    (ha : ext.enumAttributesTryFrom self.attributes = .ok a)
    (hsplit : self.members = pre ++ InterfaceMember.Operation t :: rest)
    (hpre : collectMembers ext pre ci = .ok (vs, ci₁))
    (hfail : ext.operationConvert t ci₁ = .error e) :
    self.convertEnumMetadata ext ci = .error e ∧
    self.convertErrorMetadata ext ci = .error e := by
  have hc : collectMembers ext self.members ci = .error e := by
    rw [hsplit]
    exact collectMembers_first_op_fail ext pre rest ci ci₁ vs t e hpre hfail
  constructor
  · rw [convertIfaceEnum_char ext self ci a hinh ha, hc, errorMap]
  · rw [convertIfaceError_char ext self ci a hinh ha, hc, errorMap]

/-- Witness for C7: with a failing operation converter, the interface whose
first member is an operation followed by another member yields exactly the
operation's error in both entry points. -/
theorem first_member_error_wins_witness :
    ifaceOpThenOther.convertEnumMetadata extOpFail ciTest =
      .error "operation conversion failed" ∧
    ifaceOpThenOther.convertErrorMetadata extOpFail ciTest =
      .error "operation conversion failed" :=
  first_member_error_wins extOpFail ifaceOpThenOther ciTest ciTest []
    [InterfaceMember.Other "Attribute"] () [] { non_exhaustive_attr := false }
    "operation conversion failed" (by rfl) (by rfl) rfl (by rfl) (by rfl)

/-- C8: a declaration or variant without a doc comment yields a `none`
docstring (never an empty string): the declaration-level docstring is `none`
in all four entry points when the node has no doc comment, and in the two
enum-block entry points each variant whose literal has no doc comment gets a
`none` docstring. -/
theorem docstring_absence (ext : Externals α β σ) (ci : InterfaceCollector σ) :
    (∀ (self : EnumDefinition α) (e : EnumMetadata) (ci₁ : InterfaceCollector σ),
      self.convertEnumMetadata ext ci = .ok (e, ci₁) →
      (self.docstring = none → e.docstring = none) ∧
      ∀ p ∈ self.values.zip e.variants, p.1.docstring = none → p.2.docstring = none) ∧
    (∀ (self : EnumDefinition α) (m : ErrorMetadata) (ci₁ : InterfaceCollector σ),
      self.convertErrorMetadata ext ci = .ok (m, ci₁) →
      (self.docstring = none → m.enum_.docstring = none) ∧
      ∀ p ∈ self.values.zip m.enum_.variants, p.1.docstring = none → p.2.docstring = none) ∧
    (∀ (self : InterfaceDefinition α β) (e : EnumMetadata) (ci₁ : InterfaceCollector σ),
      self.convertEnumMetadata ext ci = .ok (e, ci₁) →
      self.docstring = none → e.docstring = none) ∧
    (∀ (self : InterfaceDefinition α β) (m : ErrorMetadata) (ci₁ : InterfaceCollector σ),
      self.convertErrorMetadata ext ci = .ok (m, ci₁) →
      self.docstring = none → m.enum_.docstring = none) := by
  refine ⟨?_, ?_, ?_, ?_⟩
  · intro self e ci₁ h
    obtain ⟨a, -, he, -⟩ := convertEnumMetadataA_ok_inv ext self ci ci₁ e h
    subst he
    constructor
    · intro hd
      show (self.docstring.map fun d => ext.convert_docstring d) = none
      rw [hd]
      rfl
    · intro p hp hnone
      have hp₂ : p ∈ self.values.zip (self.values.map (fun v =>
          VariantMetadata.mk v.value none []
            (v.docstring.map (fun d => ext.convert_docstring d)))) := hp
      have h2 := mem_zip_map
        (fun v => VariantMetadata.mk v.value none []
          (v.docstring.map (fun d => ext.convert_docstring d)))
        self.values p hp₂
      rw [h2]
      show (p.1.docstring.map fun d => ext.convert_docstring d) = none
      rw [hnone]
      rfl
  · intro self m ci₁ h
    obtain ⟨a, -, hm, -⟩ := convertErrorMetadataB_ok_inv ext self ci ci₁ m h
    subst hm
    constructor
    · intro hd
      show (self.docstring.map fun d => ext.convert_docstring d) = none
      rw [hd]
      rfl
    · intro p hp hnone
      have hp₂ : p ∈ self.values.zip (self.values.map (fun v =>
          VariantMetadata.mk v.value none [] (v.docstring.map (fun d => d)))) := hp
      have h2 := mem_zip_map
        (fun v => VariantMetadata.mk v.value none [] (v.docstring.map (fun d => d)))
        self.values p hp₂
      rw [h2]
      show (p.1.docstring.map fun d => d) = none
      rw [hnone]
      rfl
  · intro self e ci₁ h hd
    obtain ⟨a, vs, -, -, -, he⟩ := convertIfaceEnum_ok_inv ext self ci ci₁ e h
    subst he
    show (self.docstring.map fun d => ext.convert_docstring d) = none
    rw [hd]
    rfl
  · intro self m ci₁ h hd
    obtain ⟨a, vs, -, -, -, hm⟩ := convertIfaceError_ok_inv ext self ci ci₁ m h
    subst hm
    show (self.docstring.map fun d => ext.convert_docstring d) = none
    rw [hd]
    rfl

/-- Witness for C8: concrete applications of all four components, plus a
variant-level instance on the undocumented duplicate-literal enum. -/
theorem docstring_absence_witness :
    eDup.docstring = none ∧
    mBdup.enum_.docstring = none ∧
    eIfaceOp.docstring = none ∧
    mIfaceOp.enum_.docstring = none ∧
    (VariantMetadata.mk "one" none [] none).docstring = none :=
  ⟨((docstring_absence extTest ciTest).1 enumDup eDup ciTest (by rfl)).1 rfl,
   ((docstring_absence extTest ciTest).2.1 enumDup mBdup ciTest (by rfl)).1 rfl,
   (docstring_absence extTest ciTest).2.2.1 ifaceOp eIfaceOp ciTest (by rfl) rfl,
   (docstring_absence extTest ciTest).2.2.2 ifaceOp mIfaceOp ciTest (by rfl) rfl,
   ((docstring_absence extTest ciTest).1 enumDup eDup ciTest (by rfl)).2
     (EnumValueNode.mk "one" none, VariantMetadata.mk "one" none [] none) (by decide) rfl⟩

end UniffiUdl
